import Mathlib

/-!
Verification model of the browser-extension background controller
(`background.js`): the service worker that persists the proxyEnabled flag,
drives the declarative-net-request rule engine, renders the toolbar badge,
answers popup messages, reconciles state at startup, and probes the proxy
server for liveness.

The worker is event-driven JavaScript: every handler is a callback and every
platform call is asynchronous.  We embed it as a small-step transition system.
A `SysState` holds the observable state (persisted storage, badge, engine
ruleset status, pending asynchronous operations, responses already sent, and
instrumentation counters).  An `Event` is one unit of event-loop work: the
delivery of a popup message, the firing of the startup hook, an external
write to synced storage, or the completion of one pending asynchronous
operation together with its outcome (success, engine error, HTTP status,
network error).  The scheduler — which event fires next, and whether a
fallible platform call succeeds — is the adversary: theorems quantify over
it, counterexamples pick a concrete schedule that real Chrome can produce.
-/

/-- A popup-to-background message, as dispatched on `request.action` by the
`chrome.runtime.onMessage` listener.  `other` covers every unrecognized
action string, for which the listener body falls through all three branches. -/
inductive Request where
  | getProxyStatus
  | toggleProxy (enabled : Bool)
  | checkServerStatus
  | other (action : String)
deriving DecidableEq, Repr

/-- A response delivered through `sendResponse`, mirroring the three JSON
shapes the background script produces. -/
inductive Response where
  /-- getProxyStatus reply: the persisted flag, defaulted to false. -/
  | status (enabled : Bool)
  /-- toggleProxy success reply carrying the requested value. -/
  | toggleOk (enabled : Bool)
  /-- toggleProxy failure reply carrying the thrown error's message. -/
  | toggleErr (error : String)
  /-- checkServerStatus reply: online flag, HTTP status when a response
  arrived, error message when the fetch rejected. -/
  | server (online : Bool) (httpStatus : Option Nat) (error : Option String)
deriving DecidableEq, Repr

/-- One in-flight asynchronous operation of the background script, i.e. a
continuation parked at an await/callback boundary. -/
inductive Op where
  /-- `chrome.storage.sync.set` issued by the toggleProxy handler, callback
  still pending, for the exchange `xid`. -/
  | toggleSet (enabled : Bool) (xid : Nat)
  /-- `updateEnabledRulesets` awaited inside `updateProxyRules` on behalf of
  the toggleProxy handler for exchange `xid`. -/
  | toggleEngine (enabled : Bool) (xid : Nat)
  /-- `updateEnabledRulesets` awaited inside `updateProxyRules` on behalf of
  the `chrome.storage.onChanged` listener (fire-and-forget, no awaiter). -/
  | listenerEngine (enabled : Bool)
  /-- `chrome.storage.sync.get` awaited by the `onStartup` listener. -/
  | startupRead
  /-- `updateEnabledRulesets` on behalf of the `onStartup` listener
  (fire-and-forget, no awaiter). -/
  | startupEngine (enabled : Bool)
  /-- `chrome.storage.sync.get` issued by the getProxyStatus handler for
  exchange `xid`. -/
  | statusRead (xid : Nat)
  /-- `fetch` of the liveness endpoint issued by the checkServerStatus
  handler for exchange `xid`. -/
  | fetchOp (xid : Nat)
deriving DecidableEq, Repr

/-- Observable state of the background worker plus its platform surfaces. -/
structure SysState where
  /-- Persisted `proxyEnabled` key in `chrome.storage.sync`; `none` when the
  key has never been written. -/
  storage : Option Bool
  /-- Current toolbar badge text (`chrome.action.setBadgeText`). -/
  badgeText : String
  /-- Current toolbar badge background color; `none` when never set. -/
  badgeColor : Option String
  /-- Whether the `proxy_rules` ruleset is currently enabled in the
  declarative-net-request engine. -/
  engineEnabled : Bool
  /-- Parked asynchronous operations, in creation order. -/
  pending : List Op
  /-- Responses delivered so far, tagged with their exchange id. -/
  sent : List (Nat × Response)
  /-- Log of arguments of every `updateProxyRules` invocation, i.e. every
  engine call initiated, in order. -/
  engineCalls : List Bool
  /-- Number of `setBadgeText` writes performed. -/
  badgeWrites : Nat
  /-- Number of `console.error` logs emitted. -/
  loggedErrors : Nat
  /-- Number of promise rejections that escaped every handler (errors
  rethrown by `updateProxyRules` into a caller that neither awaits nor
  catches). -/
  unhandledRejections : Nat
deriving DecidableEq, Repr

/-- Outcome of a completing asynchronous operation, chosen by the
environment. -/
inductive Outcome where
  /-- The platform call succeeded (storage set/get callbacks, engine ok). -/
  | ok
  /-- `updateEnabledRulesets` rejected; the thrown error's `message`. -/
  | engineErr (msg : String)
  /-- `fetch` resolved with an HTTP response of this status code. -/
  | httpResp (status : Nat)
  /-- `fetch` rejected with a network error carrying this `message`. -/
  | httpErr (msg : String)
deriving DecidableEq, Repr

/-- One unit of event-loop work. -/
inductive Event where
  /-- A popup message is delivered to the `onMessage` listener; `xid`
  identifies the exchange its `sendResponse` belongs to. -/
  | deliver (req : Request) (xid : Nat)
  /-- `chrome.runtime.onStartup` fires. -/
  | startup
  /-- The `proxyEnabled` key is written to `chrome.storage.sync` by some
  other party (another extension surface, or cross-device sync). -/
  | extSet (enabled : Bool)
  /-- The pending operation at index `i` completes with outcome `o`. -/
  | complete (i : Nat) (o : Outcome)
deriving DecidableEq, Repr

/-- The fetch `Response.ok` attribute: status in the inclusive range
200..299. -/
def responseOk (status : Nat) : Bool :=
  200 ≤ status && status ≤ 299

/-- The tail of `updateProxyRules` after the awaited engine call succeeds:
record the new ruleset status and project it onto the badge.  The enable
branch writes text "ON" and green background; the disable branch clears the
text and leaves the color untouched. -/
def engineSuccess (s : SysState) (enabled : Bool) : SysState :=
  if enabled then
    { s with engineEnabled := true, badgeText := "ON",
             badgeColor := some "#10B981", badgeWrites := s.badgeWrites + 1 }
  else
    { s with engineEnabled := false, badgeText := "",
             badgeWrites := s.badgeWrites + 1 }

/-- The catch branch of `updateProxyRules`: log the error, set the badge to
"ERR" on red, and rethrow.  The ruleset status is left as it was. -/
def engineFailure (s : SysState) : SysState :=
  { s with badgeText := "ERR", badgeColor := some "#EF4444",
           badgeWrites := s.badgeWrites + 1, loggedErrors := s.loggedErrors + 1 }

/-- The synchronous prefix of the `onMessage` listener: each recognized
action starts its asynchronous platform call and returns true to keep the
channel open; an unrecognized action falls through every branch, so nothing
is started and no response will ever be produced for the exchange. -/
def deliverStep (s : SysState) (req : Request) (xid : Nat) : SysState :=
  match req with
  | .getProxyStatus => { s with pending := s.pending ++ [.statusRead xid] }
  | .toggleProxy e => { s with pending := s.pending ++ [.toggleSet e xid] }
  | .checkServerStatus => { s with pending := s.pending ++ [.fetchOp xid] }
  | .other _ => s

/-- Completion of the pending operation `t` (already removed from
`s.pending`) with outcome `o`; `none` when `o` is not an outcome this kind of
operation can have, in which case the completion is vacuous.

The `toggleSet` case is the storage.set callback: the value is now
persisted; the handler invokes `updateProxyRules enabled` (parking at the
engine await), and `chrome.storage.onChanged` fires — in every context,
including the writer's own — exactly when the stored value actually changed,
which makes the listener invoke `updateProxyRules` a second time. -/
def completeOp (s : SysState) (t : Op) (o : Outcome) : Option SysState :=
  match t, o with
  | .toggleSet e xid, .ok =>
      some { s with storage := some e,
                    pending := s.pending ++ [.toggleEngine e xid] ++
                      (if s.storage = some e then [] else [.listenerEngine e]),
                    engineCalls := s.engineCalls ++ [e] ++
                      (if s.storage = some e then [] else [e]) }
  | .toggleEngine e xid, .ok =>
      let s1 := engineSuccess s e
      some { s1 with sent := s1.sent ++ [(xid, .toggleOk e)] }
  | .toggleEngine _ xid, .engineErr m =>
      let s1 := engineFailure s
      some { s1 with sent := s1.sent ++ [(xid, .toggleErr m)],
                     loggedErrors := s1.loggedErrors + 1 }
  | .listenerEngine e, .ok => some (engineSuccess s e)
  | .listenerEngine _, .engineErr _ =>
      let s1 := engineFailure s
      some { s1 with unhandledRejections := s1.unhandledRejections + 1 }
  | .startupRead, .ok =>
      let e := s.storage.getD false
      some { s with pending := s.pending ++ [.startupEngine e],
                    engineCalls := s.engineCalls ++ [e] }
  | .startupEngine e, .ok => some (engineSuccess s e)
  | .startupEngine _, .engineErr _ =>
      let s1 := engineFailure s
      some { s1 with unhandledRejections := s1.unhandledRejections + 1 }
  | .statusRead xid, .ok =>
      some { s with sent := s.sent ++ [(xid, .status (s.storage.getD false))] }
  | .fetchOp xid, .httpResp st =>
      some { s with sent := s.sent ++ [(xid, .server (responseOk st) (some st) none)] }
  | .fetchOp xid, .httpErr m =>
      some { s with sent := s.sent ++ [(xid, .server false none (some m))] }
  | _, _ => none

/-- One step of the event loop. -/
def step (s : SysState) (ev : Event) : SysState :=
  match ev with
  | .deliver req xid => deliverStep s req xid
  | .startup => { s with pending := s.pending ++ [.startupRead] }
  | .extSet e =>
      if s.storage = some e then { s with storage := some e }
      else { s with storage := some e,
                    pending := s.pending ++ [.listenerEngine e],
                    engineCalls := s.engineCalls ++ [e] }
  | .complete i o =>
      match s.pending[i]? with
      | none => s
      | some t =>
          match completeOp { s with pending := s.pending.eraseIdx i } t o with
          | some s1 => s1
          | none => s

/-- Run a list of event-loop steps. -/
def run (s : SysState) (evs : List Event) : SysState :=
  evs.foldl step s

/-- Quiescent state right after first install: the onInstalled listener has
persisted the default `proxyEnabled = false` and cleared the badge. -/
def s0 : SysState :=
  { storage := some false, badgeText := "", badgeColor := none,
    engineEnabled := false, pending := [], sent := [], engineCalls := [],
    badgeWrites := 0, loggedErrors := 0, unhandledRejections := 0 }

/-- Convergence invariant I2: the rule engine's ruleset status agrees with
the persisted flag (an absent key reads as false). -/
def engineMatchesStorage (s : SysState) : Prop :=
  s.engineEnabled = s.storage.getD false

instance (s : SysState) : Decidable (engineMatchesStorage s) := by
  unfold engineMatchesStorage; infer_instance

/-- One toggleProxy exchange driven to quiescence with every platform call succeeding: message delivery, storage.set callback, and up to three completions covering the handler engine call and, when the stored value changed, the listener engine call (a completion aimed at an empty queue is a no-op). -/
def toggleOkRun (s : SysState) (e : Bool) (x : Nat) : SysState :=
  run s [.deliver (.toggleProxy e) x, .complete 0 .ok, .complete 0 .ok, .complete 0 .ok]

/-- A sequence of successful toggle exchanges, each driven to quiescence before the next begins. -/
def toggleSeqRun (s : SysState) (l : List (Bool × Nat)) : SysState :=
  l.foldl (fun s p => toggleOkRun s p.1 p.2) s

/-- The exchange a pending operation answers to, if any: operations started by a message handler respond on that exchange; listener and startup operations answer to nobody. -/
def Op.owner : Op → Option Nat
  | .toggleSet _ x => some x
  | .toggleEngine _ x => some x
  | .statusRead x => some x
  | .fetchOp x => some x
  | .listenerEngine _ => none
  | .startupRead => none
  | .startupEngine _ => none

/-- Whether the onMessage listener recognizes the action of a request. -/
def Request.known : Request → Bool
  | .other _ => false
  | _ => true

/-- Number of responses already sent on exchange x plus pending operations that will still respond on x. -/
def exCount (s : SysState) (x : Nat) : Nat :=
  s.sent.countP (fun p => decide (p.1 = x)) +
    s.pending.countP (fun t => decide (t.owner = some x))

/-- Whether an event is the delivery of a recognized-action message on exchange x. -/
def deliversTo (x : Nat) : Event → Bool
  | .deliver req y => decide (y = x) && req.known
  | _ => false

@[simp] theorem owner_toggleSet (e : Bool) (x : Nat) :
    (Op.toggleSet e x).owner = some x := rfl

@[simp] theorem owner_toggleEngine (e : Bool) (x : Nat) :
    (Op.toggleEngine e x).owner = some x := rfl

@[simp] theorem owner_statusRead (x : Nat) : (Op.statusRead x).owner = some x := rfl

@[simp] theorem owner_fetchOp (x : Nat) : (Op.fetchOp x).owner = some x := rfl

@[simp] theorem owner_listenerEngine (e : Bool) : (Op.listenerEngine e).owner = none := rfl

@[simp] theorem owner_startupRead : Op.startupRead.owner = none := rfl

@[simp] theorem owner_startupEngine (e : Bool) : (Op.startupEngine e).owner = none := rfl

@[simp] theorem countP_owner_listener_opt (c : Prop) [Decidable c] (e : Bool) (x : Nat) :
    List.countP (fun t => decide (Op.owner t = some x))
      (if c then [] else [Op.listenerEngine e]) = 0 := by
  split <;> simp

theorem countP_eraseIdx_eq (p : α → Bool) (l : List α) (i : Nat) (t : α)
    (h : l[i]? = some t) :
    (l.eraseIdx i).countP p + (if p t then 1 else 0) = l.countP p := by
  induction l generalizing i with
  | nil => simp at h
  | cons a l ih =>
      cases i with
      | zero =>
          simp only [List.getElem?_cons_zero, Option.some.injEq] at h
          cases h
          simp [List.countP_cons]
      | succ i =>
          simp only [List.getElem?_cons_succ] at h
          have := ih i h
          simp [List.eraseIdx, List.countP_cons]
          omega

theorem step_exCount (s : SysState) (ev : Event) (x : Nat) :
    exCount (step s ev) x = exCount s x + (if deliversTo x ev then 1 else 0) := by
  cases ev with
  | deliver req xid =>
      cases req <;>
        simp [step, deliverStep, exCount, deliversTo, Request.known, Op.owner,
              List.countP_append, List.countP_cons] <;> omega
  | startup =>
      simp [step, exCount, deliversTo, Op.owner, List.countP_append, List.countP_cons]
  | extSet e =>
      by_cases h : s.storage = some e <;>
        simp [step, h, exCount, deliversTo, Op.owner, List.countP_append, List.countP_cons]
  | complete i o =>
      cases h : s.pending[i]? with
      | none => simp [step, h, deliversTo]
      | some t =>
          have hc := countP_eraseIdx_eq (fun u => decide (u.owner = some x)) s.pending i t h
          cases t <;> cases o <;>
            simp only [step, h, completeOp, exCount, engineSuccess, engineFailure,
                  deliversTo, List.countP_append, List.countP_cons] <;>
            simp at hc <;>
            first
              | (split <;> simp [List.countP_append, List.countP_cons] <;> omega)
              | (simp [List.countP_append, List.countP_cons] <;> omega)

theorem run_exCount (evs : List Event) (s : SysState) (x : Nat) :
    exCount (run s evs) x = exCount s x + evs.countP (deliversTo x) := by
  induction evs generalizing s with
  | nil => simp [run]
  | cons ev evs ih =>
      have h := step_exCount s ev x
      simp only [run, List.foldl_cons, List.countP_cons]
      rw [show List.foldl step (step s ev) evs = run (step s ev) evs from rfl, ih, h]
      by_cases hd : deliversTo x ev <;> simp [hd] <;> omega

theorem toggleOkRun_props (s : SysState) (e : Bool) (x : Nat) (hp : s.pending = []) :
    (toggleOkRun s e x).pending = [] ∧ (toggleOkRun s e x).storage = some e ∧
      (toggleOkRun s e x).engineEnabled = e := by
  obtain ⟨st, bt, bc, en, pd, snt, ec, bw, le, ur⟩ := s
  simp only at hp
  subst hp
  by_cases h : st = some e <;>
    cases e <;> simp [toggleOkRun, run, step, deliverStep, completeOp, engineSuccess, h]

theorem toggleSeqRun_pending (s : SysState) (l : List (Bool × Nat)) (hp : s.pending = []) :
    (toggleSeqRun s l).pending = [] := by
  induction l generalizing s with
  | nil => simpa [toggleSeqRun]
  | cons p l ih =>
      have h := toggleOkRun_props s p.1 p.2 hp
      simpa [toggleSeqRun] using ih (toggleOkRun s p.1 p.2) h.1

/-- Claim C1: when the engine call of a toggleProxy request fails, the handler replies with success false and the error message, the badge shows ERR on red, and the persisted flag keeps the requested new value written before the engine call — it is not rolled back; the engine ruleset status is untouched. -/
theorem toggle_engine_failure_no_rollback (s : SysState) (e : Bool) (x : Nat) (m : String)
    (hp : s.pending = []) :
    let f := run s [.deliver (.toggleProxy e) x, .complete 0 .ok, .complete 0 (.engineErr m)]
    f.storage = some e ∧ f.badgeText = "ERR" ∧ f.badgeColor = some "#EF4444" ∧
      f.sent = s.sent ++ [(x, .toggleErr m)] ∧ f.engineEnabled = s.engineEnabled := by
  obtain ⟨st, bt, bc, en, pd, snt, ec, bw, le, ur⟩ := s
  simp only at hp
  subst hp
  by_cases h : st = some e <;>
    simp [run, step, deliverStep, completeOp, engineFailure, h]

/-- Claim C1 witness: the engine-failure theorem applied at the post-install state with a PermissionDenied failure. -/
theorem toggle_engine_failure_witness :
    (s0.pending = []) ∧
    (let f := run s0 [.deliver (.toggleProxy true) 1, .complete 0 .ok,
        .complete 0 (.engineErr "PermissionDenied")]
     f.storage = some true ∧ f.badgeText = "ERR" ∧ f.badgeColor = some "#EF4444" ∧
       f.sent = s0.sent ++ [(1, .toggleErr "PermissionDenied")] ∧
       f.engineEnabled = s0.engineEnabled) :=
  ⟨by decide, toggle_engine_failure_no_rollback s0 true 1 "PermissionDenied" (by decide)⟩

/-- Claim C2 counterexample: a toggleProxy call that completes — its response is delivered and no work remains pending — with a failing engine leaves the engine ruleset status permanently different from the persisted flag, so convergence does not hold after every completed call. -/
theorem engine_failure_breaks_convergence :
    let f := run s0 [.deliver (.toggleProxy true) 1, .complete 0 .ok,
        .complete 0 (.engineErr "PermissionDenied"), .complete 0 (.engineErr "PermissionDenied")]
    f.pending = [] ∧ f.sent = [(1, .toggleErr "PermissionDenied")] ∧
      ¬ engineMatchesStorage f := by decide

/-- Claim C2 amended: after every toggle call whose engine updates succeed, run to quiescence, the engine ruleset status equals the persisted flag, for every sequence of such calls. -/
theorem convergence_after_successful_toggles (s : SysState) (l : List (Bool × Nat))
    (e : Bool) (x : Nat) (hp : s.pending = []) :
    engineMatchesStorage (toggleSeqRun s (l ++ [(e, x)])) := by
  have hpl := toggleSeqRun_pending s l hp
  have h := toggleOkRun_props (toggleSeqRun s l) e x hpl
  have key : toggleSeqRun s (l ++ [(e, x)]) = toggleOkRun (toggleSeqRun s l) e x := by
    simp [toggleSeqRun]
  unfold engineMatchesStorage
  rw [key, h.2.1, h.2.2]
  rfl

/-- Claim C2 witness: convergence after a concrete alternating sequence of successful toggles. -/
theorem convergence_witness :
    (s0.pending = []) ∧
      engineMatchesStorage (toggleSeqRun s0 ([(true, 1), (false, 2)] ++ [(true, 3)])) :=
  ⟨by decide, convergence_after_successful_toggles s0 [(true, 1), (false, 2)] true 3 (by decide)⟩

/-- Claim C3 counterexample: a toggleProxy request delivered while a previous toggle transition is still in flight is not rejected: it is fully processed — persisted, four engine calls in total are made for the two requests, and it receives its own success response with its requested value rather than a no-op reply with the then-current state. -/
theorem midflight_toggle_not_rejected :
    let f := run s0 [.deliver (.toggleProxy true) 1, .complete 0 .ok,
        .deliver (.toggleProxy false) 2, .complete 0 .ok, .complete 0 .ok,
        .complete 0 .ok, .complete 0 .ok, .complete 0 .ok]
    f.sent = [(1, .toggleOk true), (2, .toggleOk false)] ∧
      f.engineCalls = [true, true, false, false] ∧ f.storage = some false := by decide

/-- Claim C3 amended: the background handler has no transition guard at all: delivering a toggleProxy message always just enqueues the storage write for processing, with no rejection and no dependence on any in-flight transition; only the popup UI keeps a second toggle from being issued, by disabling its control while one is awaiting a response. -/
theorem toggle_handler_unconditional (s : SysState) (e : Bool) (x : Nat) :
    step s (.deliver (.toggleProxy e) x) =
      { s with pending := s.pending ++ [.toggleSet e x] } := by
  rfl

/-- Claim C4: from persisted false, a toggleProxy true request whose engine calls succeed responds with success true and enabled true, sets the badge to ON on green, and leaves the storage holding true. -/
theorem toggle_happy_path (s : SysState) (x : Nat)
    (hp : s.pending = []) (hst : s.storage = some false) :
    let f := run s [.deliver (.toggleProxy true) x, .complete 0 .ok,
        .complete 0 .ok, .complete 0 .ok]
    f.sent = s.sent ++ [(x, .toggleOk true)] ∧ f.badgeText = "ON" ∧
      f.badgeColor = some "#10B981" ∧ f.storage = some true := by
  obtain ⟨st, bt, bc, en, pd, snt, ec, bw, le, ur⟩ := s
  simp only at hp hst
  subst hp; subst hst
  simp [run, step, deliverStep, completeOp, engineSuccess]

/-- Claim C4 witness: the happy-path theorem applied at the post-install state. -/
theorem toggle_happy_path_witness :
    (s0.pending = [] ∧ s0.storage = some false) ∧
    (let f := run s0 [.deliver (.toggleProxy true) 2, .complete 0 .ok,
        .complete 0 .ok, .complete 0 .ok]
     f.sent = s0.sent ++ [(2, .toggleOk true)] ∧ f.badgeText = "ON" ∧
       f.badgeColor = some "#10B981" ∧ f.storage = some true) :=
  ⟨⟨by decide, by decide⟩, toggle_happy_path s0 2 (by decide) (by decide)⟩

/-- Claim C5 counterexample: a getProxyStatus request delivered while the startup storage read is still pending can be answered first, returning true from persisted storage before any engine enable call has been invoked — nothing orders startup reconciliation before message handling. -/
theorem startup_race_getStatus_first :
    let f := run { s0 with storage := some true }
        [.startup, .deliver .getProxyStatus 7, .complete 1 .ok]
    f.sent = [(7, .status true)] ∧ f.engineCalls = [] := by decide

/-- Claim C5 amended: the startup listener reads the persisted flag and re-applies it to the rule engine — enable for persisted true, disable for persisted false or a missing key — but without any ordering guarantee relative to getProxyStatus handling. -/
theorem startup_reapplies_persisted_flag (s : SysState) (hp : s.pending = []) :
    let f := run s [.startup, .complete 0 .ok, .complete 0 .ok]
    f.engineCalls = s.engineCalls ++ [s.storage.getD false] ∧
      f.engineEnabled = s.storage.getD false := by
  obtain ⟨st, bt, bc, en, pd, snt, ec, bw, le, ur⟩ := s
  simp only at hp
  subst hp
  cases h : st.getD false <;>
    simp [run, step, deliverStep, completeOp, engineSuccess, h]

/-- Claim C5 witness: startup re-application with persisted true invokes the engine with true. -/
theorem startup_reapply_witness :
    (SysState.pending { s0 with storage := some true } = []) ∧
    (let f := run { s0 with storage := some true } [.startup, .complete 0 .ok, .complete 0 .ok]
     f.engineCalls = SysState.engineCalls { s0 with storage := some true } ++
        [(SysState.storage { s0 with storage := some true }).getD false] ∧
       f.engineEnabled = (SysState.storage { s0 with storage := some true }).getD false) :=
  ⟨by decide, startup_reapplies_persisted_flag { s0 with storage := some true } (by decide)⟩

/-- Claim C6: every checkServerStatus completion produces exactly one classification response: an HTTP response yields online equal to the 2xx test of its status, and a network failure yields online false with the error message; no transport error propagates to the caller. -/
theorem server_status_classification (s : SysState) (x : Nat) (st : Nat) (m : String)
    (hp : s.pending = []) :
    ((run s [.deliver .checkServerStatus x, .complete 0 (.httpResp st)]).sent
        = s.sent ++ [(x, .server (responseOk st) (some st) none)]) ∧
    (responseOk st = true ↔ (200 ≤ st ∧ st ≤ 299)) ∧
    ((run s [.deliver .checkServerStatus x, .complete 0 (.httpErr m)]).sent
        = s.sent ++ [(x, .server false none (some m))]) := by
  obtain ⟨stg, bt, bc, en, pd, snt, ec, bw, le, ur⟩ := s
  simp only at hp
  subst hp
  refine ⟨?_, ?_, ?_⟩
  · simp [run, step, deliverStep, completeOp]
  · simp [responseOk]
  · simp [run, step, deliverStep, completeOp]

/-- Claim C6 witness: classification at status 503 and at a network failure. -/
theorem server_status_witness :
    (s0.pending = []) ∧
    (((run s0 [.deliver .checkServerStatus 6, .complete 0 (.httpResp 503)]).sent
        = s0.sent ++ [(6, .server (responseOk 503) (some 503) none)]) ∧
     (responseOk 503 = true ↔ (200 ≤ 503 ∧ 503 ≤ 299)) ∧
     ((run s0 [.deliver .checkServerStatus 6, .complete 0 (.httpErr "Failed to fetch")]).sent
        = s0.sent ++ [(6, .server false none (some "Failed to fetch"))])) :=
  ⟨by decide, server_status_classification s0 6 503 "Failed to fetch" (by decide)⟩

/-- Claim C7 counterexample: a message with an unrecognized action receives no response at all — the listener falls through every branch, nothing is enqueued, and the exchange ends with zero responses, not exactly one. -/
theorem unknown_action_no_response :
    let f := run s0 [.deliver (.other "ping") 5]
    f.sent = [] ∧ f.pending = [] := by decide

/-- Claim C7 amended: an exchange carrying a recognized action, delivered exactly once, receives exactly one response once none of its operations remain pending; it can never receive more than one, since responses plus pending responders for the exchange are conserved at one. -/
theorem one_response_per_known_exchange (s : SysState) (evs : List Event) (x : Nat)
    (h0 : exCount s x = 0) (h1 : evs.countP (deliversTo x) = 1)
    (hq : (run s evs).pending.countP (fun t => decide (t.owner = some x)) = 0) :
    (run s evs).sent.countP (fun p => decide (p.1 = x)) = 1 := by
  have h := run_exCount evs s x
  rw [h0, h1] at h
  unfold exCount at h
  omega

/-- Claim C7 witness: a concrete run with one recognized-action delivery and one noise delivery yields exactly one response on the recognized exchange. -/
theorem one_response_witness :
    let evs : List Event := [.deliver (.toggleProxy true) 9, .complete 0 .ok,
        .complete 0 .ok, .complete 0 .ok, .deliver (.other "noise") 10]
    (exCount s0 9 = 0 ∧ evs.countP (deliversTo 9) = 1 ∧
      (run s0 evs).pending.countP (fun t => decide (t.owner = some 9)) = 0) ∧
    (run s0 evs).sent.countP (fun p => decide (p.1 = 9)) = 1 :=
  ⟨⟨by decide, by decide, by decide⟩,
    one_response_per_known_exchange s0 _ 9 (by decide) (by decide) (by decide)⟩

/-- Claim C8 counterexample: an engine failure in the storage-change listener path escapes as an unhandled promise rejection — the listener neither awaits nor catches updateProxyRules — so a failure does escape an entry point as an uncaught error, though it is logged. -/
theorem listener_engine_failure_unhandled :
    let f := run s0 [.extSet true, .complete 0 (.engineErr "PermissionDenied")]
    f.unhandledRejections = 1 ∧ f.loggedErrors = 1 := by decide

/-- Claim C8 amended: an engine failure in the storage-change path is logged and becomes one unhandled rejection, but it is not process-fatal in the model: the controller answers the next request normally. -/
theorem failures_logged_controller_usable (s : SysState) (m : String) (x : Nat)
    (hp : s.pending = []) (hst : s.storage = some false) :
    let f := run s [.extSet true, .complete 0 (.engineErr m),
        .deliver .getProxyStatus x, .complete 0 .ok]
    f.loggedErrors = s.loggedErrors + 1 ∧
      f.unhandledRejections = s.unhandledRejections + 1 ∧
      f.sent = s.sent ++ [(x, .status true)] := by
  obtain ⟨st, bt, bc, en, pd, snt, ec, bw, le, ur⟩ := s
  simp only at hp hst
  subst hp; subst hst
  simp [run, step, deliverStep, completeOp, engineFailure]

/-- Claim C8 witness: the logged-and-usable theorem at the post-install state. -/
theorem failures_logged_witness :
    (s0.pending = [] ∧ s0.storage = some false) ∧
    (let f := run s0 [.extSet true, .complete 0 (.engineErr "PermissionDenied"),
        .deliver .getProxyStatus 8, .complete 0 .ok]
     f.loggedErrors = s0.loggedErrors + 1 ∧
       f.unhandledRejections = s0.unhandledRejections + 1 ∧
       f.sent = s0.sent ++ [(8, .status true)]) :=
  ⟨⟨by decide, by decide⟩, failures_logged_controller_usable s0 "PermissionDenied" 8 (by decide) (by decide)⟩

/-- Claim C9: toggling to the value already persisted completes successfully, still invokes the engine exactly once (the onChanged listener does not fire, since the stored value did not change), and leaves badge text, badge color, persisted value and the reported enabled value unchanged. -/
theorem toggle_idempotent_same_state (s : SysState) (e : Bool) (x : Nat)
    (hp : s.pending = []) (hst : s.storage = some e)
    (hbt : s.badgeText = (if e then "ON" else ""))
    (hbc : e = true → s.badgeColor = some "#10B981") :
    let f := run s [.deliver (.toggleProxy e) x, .complete 0 .ok, .complete 0 .ok]
    f.sent = s.sent ++ [(x, .toggleOk e)] ∧ f.badgeText = s.badgeText ∧
      f.badgeColor = s.badgeColor ∧ f.storage = some e ∧
      f.engineCalls = s.engineCalls ++ [e] := by
  obtain ⟨st, bt, bc, en, pd, snt, ec, bw, le, ur⟩ := s
  simp only at hp hst hbt hbc
  subst hp; subst hst; subst hbt
  cases e with
  | false => simp [run, step, deliverStep, completeOp, engineSuccess]
  | true =>
      have hbc' := hbc rfl
      subst hbc'
      simp [run, step, deliverStep, completeOp, engineSuccess]

/-- Claim C9 witness: idempotent re-disable at the post-install state. -/
theorem toggle_idempotent_witness :
    (s0.pending = [] ∧ s0.storage = some false ∧
      s0.badgeText = (if false then "ON" else "") ∧
      (false = true → s0.badgeColor = some "#10B981")) ∧
    (let f := run s0 [.deliver (.toggleProxy false) 3, .complete 0 .ok, .complete 0 .ok]
     f.sent = s0.sent ++ [(3, .toggleOk false)] ∧ f.badgeText = s0.badgeText ∧
       f.badgeColor = s0.badgeColor ∧ f.storage = some false ∧
       f.engineCalls = s0.engineCalls ++ [false]) :=
  ⟨⟨by decide, by decide, by decide, by decide⟩,
    toggle_idempotent_same_state s0 false 3 (by decide) (by decide) (by decide) (by decide)⟩

/-- Claim C10: every actual change of the persisted flag fires the storage-change listener, which invokes the engine update with the new value — and a toggleProxy request that changes the stored value therefore runs the engine update and the badge write twice, once from its own handler and once from the listener. -/
theorem storage_change_drives_engine_twice (s : SysState) (e : Bool) (x : Nat)
    (hp : s.pending = []) (hch : s.storage ≠ some e) :
    (step s (.extSet e) =
      { s with storage := some e, pending := s.pending ++ [.listenerEngine e],
               engineCalls := s.engineCalls ++ [e] }) ∧
    (let f := run s [.deliver (.toggleProxy e) x, .complete 0 .ok,
        .complete 0 .ok, .complete 0 .ok]
     f.engineCalls = s.engineCalls ++ [e, e] ∧ f.badgeWrites = s.badgeWrites + 2) := by
  obtain ⟨st, bt, bc, en, pd, snt, ec, bw, le, ur⟩ := s
  simp only at hp hch
  subst hp
  constructor
  · simp [step, hch]
  · cases e <;> simp [run, step, deliverStep, completeOp, engineSuccess, hch]

/-- Claim C10 witness: the double-update theorem at the post-install state toggled to true. -/
theorem storage_change_witness :
    (s0.pending = [] ∧ s0.storage ≠ some true) ∧
    ((step s0 (.extSet true) =
      { s0 with storage := some true, pending := s0.pending ++ [.listenerEngine true],
                engineCalls := s0.engineCalls ++ [true] }) ∧
     (let f := run s0 [.deliver (.toggleProxy true) 4, .complete 0 .ok,
        .complete 0 .ok, .complete 0 .ok]
      f.engineCalls = s0.engineCalls ++ [true, true] ∧
        f.badgeWrites = s0.badgeWrites + 2)) :=
  ⟨⟨by decide, by decide⟩,
    storage_change_drives_engine_twice s0 true 4 (by decide) (by decide)⟩
